import Mathlib

/-!
# NativeRegisterContextLinux_mips64

A shallow embedding of `source/Plugins/Process/Linux/NativeRegisterContextLinux_mips64.cpp`
and theorems about it.

Conventions of the embedding

* C++ out-parameters (`RegisterValue &reg_value`, `bool &is_hit`) are passed in and
  returned: a function takes the value the caller holds and returns the value the
  caller holds afterwards.
* The member `m_thread` is passed in and returned.  It carries what
  `m_thread.GetProcess ()` yields (an empty or a live reference to the process
  collaborator, whose state is a value of the type parameter `P`) and what
  `m_thread.GetID ()` yields.
* Every call made on the process collaborator (`ReadRegisterValue`,
  `WriteRegisterValue`) is recorded in the `calls` list of the result.
* `assert` is modelled in both build flavours through the flag `NDEBUG`:
  without `NDEBUG` a failing assertion ends the call (`Outcome.assertFail`),
  with `NDEBUG` the assertion is compiled out.  Dereferencing a null pointer is
  `Outcome.nullDeref`.
* `uint32_t` and `uint64_t` values are natural numbers; the file does no
  arithmetic on them, so no wrap-around is involved.
* The classes `RegisterValue`, `NativeProcessLinux` and the base class
  `NativeRegisterContextRegisterInfo` are declared outside this source file.  What
  the file uses of them (`GetByteSize`, `SetType`, `ReadRegisterValue`,
  `WriteRegisterValue`, `GetRegisterInfoAtIndex`) is taken as a parameter, packed
  in `Context`; the theorems hold for every choice of them.
-/

namespace NativeRegisterContextLinux_mips64

/-! ## Constants declared in `lldb-defines.h` -/

/-- Modelled from the spec: the invalid-register sentinel `LLDB_INVALID_REGNUM`, whose
definition (`lldb-defines.h`, `UINT32_MAX`) is not part of this source file. -/
def LLDB_INVALID_REGNUM : Nat := 4294967295

/-- Modelled from the spec: the invalid-slot sentinel `LLDB_INVALID_INDEX32`, whose
definition (`lldb-defines.h`, `UINT32_MAX`) is not part of this source file. -/
def LLDB_INVALID_INDEX32 : Nat := 4294967295

/-- Modelled from the spec: the invalid-address sentinel `LLDB_INVALID_ADDRESS`, whose
definition (`lldb-defines.h`, `UINT64_MAX`) is not part of this source file. -/
def LLDB_INVALID_ADDRESS : Nat := 18446744073709551615

/-! ## Data model -/

/-- The enumerators that occur in the table `g_gp_regnums_mips64`, kept symbolic: their
numeric values are fixed by a header that is not part of this source file.  The last
constructor is the terminating flag of a register-number array. -/
inductive RegNum where
  | gp_reg_r0_mips64
  | gp_reg_r1_mips64
  | gp_reg_r2_mips64
  | gp_reg_r3_mips64
  | gp_reg_r4_mips64
  | gp_reg_r5_mips64
  | gp_reg_r6_mips64
  | gp_reg_r7_mips64
  | gp_reg_r8_mips64
  | gp_reg_r9_mips64
  | gp_reg_r10_mips64
  | gp_reg_r11_mips64
  | gp_reg_r12_mips64
  | gp_reg_r13_mips64
  | gp_reg_r14_mips64
  | gp_reg_r15_mips64
  | gp_reg_r16_mips64
  | gp_reg_r17_mips64
  | gp_reg_r18_mips64
  | gp_reg_r19_mips64
  | gp_reg_r20_mips64
  | gp_reg_r21_mips64
  | gp_reg_r22_mips64
  | gp_reg_r23_mips64
  | gp_reg_r24_mips64
  | gp_reg_r25_mips64
  | gp_reg_r26_mips64
  | gp_reg_r27_mips64
  | gp_reg_r28_mips64
  | gp_reg_r29_mips64
  | gp_reg_r30_mips64
  | gp_reg_r31_mips64
  | gp_reg_mullo_mips64
  | gp_reg_mulhi_mips64
  | gp_reg_pc_mips64
  | gp_reg_badvaddr_mips64
  | gp_reg_sr_mips64
  | gp_reg_cause_mips64
  | LLDB_INVALID_REGNUM
  deriving DecidableEq, Repr

/-- The struct `RegisterSet`: name, short name, number of registers, and the array the
`registers` pointer points to. -/
structure RegisterSet where
  name : String
  short_name : String
  num_registers : Nat
  registers : List RegNum
  deriving DecidableEq, Repr

/-- The machine variants `GetMachine ()` can yield.  The two the source names, and one
constructor standing for every other member of `llvm::Triple::ArchType`. -/
inductive ArchType where
  | mips64
  | mips64el
  | otherArch (tag : Nat)
  deriving DecidableEq, Repr

/-- The fields of `RegisterInfo` this source file reads.  `name` is a `const char *`
and may be null; `kinds_eRegisterKindLLDB` is `kinds[lldb::eRegisterKindLLDB]`. -/
structure RegisterInfo where
  name : Option String
  byte_size : Nat
  byte_offset : Nat
  kinds_eRegisterKindLLDB : Nat
  deriving DecidableEq, Repr

/-- The values of `lldb_private::Error` that occur in this source file, one constructor
per message, and one constructor for every other failure (a collaborator may return
any error). -/
inductive Error where
  /-- A default-constructed `Error`: success. -/
  | success
  /-- The message `register %u not found`. -/
  | registerNotFound (reg_index : Nat)
  /-- The message `NativeProcessProtocol is NULL`. -/
  | processIsNull
  /-- The message `reg_info NULL`. -/
  | regInfoNull
  /-- The message `register "%s" is an internal-only lldb register, cannot read directly`. -/
  | internalOnlyRegister (name : Option String)
  /-- The message `... failed to get RegisterInfo for write register index %u`. -/
  | failedToGetRegisterInfo (reg_to_write : Nat)
  /-- The message `no lldb regnum for %s`. -/
  | noLldbRegnum (name : String)
  /-- The message `MIPS TODO: NativeRegisterContextLinux_mips64::%s not implemented`. -/
  | notImplemented (function : String)
  /-- Any other failure, with its message. -/
  | otherFailure (message : String)
  deriving DecidableEq, Repr

/-- The method `Error::Success ()`. -/
def Error.Success : Error → Bool
  | Error.success => true
  | _ => false

/-- Modelled from the spec: the error taxonomy of the spec's error-handling section.  The
source has no error kinds, only messages. -/
inductive ErrorKind where
  | NotFound
  | NullReference
  | InvalidRegister
  | Unsupported
  deriving DecidableEq, Repr

/-- Modelled from the spec: which kind of the spec's taxonomy each message of the source
stands for (unresolvable register index, missing process or descriptor argument,
sentinel register addressed directly, feature not implemented).  Success and
failures that come from elsewhere have none. -/
def Error.kind : Error → Option ErrorKind
  | Error.success => none
  | Error.registerNotFound _ => some ErrorKind.NotFound
  | Error.processIsNull => some ErrorKind.NullReference
  | Error.regInfoNull => some ErrorKind.NullReference
  | Error.internalOnlyRegister _ => some ErrorKind.InvalidRegister
  | Error.failedToGetRegisterInfo _ => some ErrorKind.NotFound
  | Error.noLldbRegnum _ => some ErrorKind.InvalidRegister
  | Error.notImplemented _ => some ErrorKind.Unsupported
  | Error.otherFailure _ => none

/-- How a call ends: it returns, it stops at a failing `assert`, or it dereferences a
null pointer. -/
inductive Outcome (α : Type) where
  | ret (a : α)
  | assertFail (msg : String)
  | nullDeref
  deriving DecidableEq, Repr

/-- A call made on the process collaborator, with its arguments. -/
inductive Call (V : Type) where
  | ReadRegisterValue (tid : Nat) (byte_offset : Nat) (name : Option String) (byte_size : Nat)
  | WriteRegisterValue (tid : Nat) (byte_offset : Nat) (name : Option String) (value : V)
  deriving DecidableEq, Repr

/-- The member `m_thread`: what `GetProcess ()` yields (`none` is the empty reference,
`some p` a live process collaborator in state `p`) and what `GetID ()` yields. -/
structure NativeThreadProtocol (P : Type) where
  GetProcess : Option P
  GetID : Nat
  deriving DecidableEq, Repr

/-- The result of a member function: how it ended, `m_thread` afterwards, and the calls it
made on the process collaborator, in order. -/
structure Step (P V α : Type) where
  outcome : Outcome α
  m_thread : NativeThreadProtocol P
  calls : List (Call V)
  deriving DecidableEq, Repr

/-- What the source file takes from elsewhere.  `V` is the class `RegisterValue`, `P` the
state of the process collaborator.

* `NDEBUG`: whether assertions are compiled out;
* `GetMachine`: `GetRegisterInfoInterface ().GetTargetArchitecture ().GetMachine ()`;
* `k_num_gp_reg_mips64`: the constant of that name;
* `GetRegisterInfoAtIndex`: the catalog lookup of the base class, `none` for `nullptr`;
* `ReadRegisterValue`: the raw read of `NativeProcessLinux`, from the process state,
  the thread id, offset, name, size and the value the out-parameter holds, to the error
  and the value the out-parameter holds afterwards;
* `WriteRegisterValue`: the raw write, to the error and the process state afterwards;
* `GetByteSize`, `SetType`: the methods of `RegisterValue`. -/
structure Context (P V : Type) where
  NDEBUG : Bool
  GetMachine : ArchType
  k_num_gp_reg_mips64 : Nat
  GetRegisterInfoAtIndex : Nat → Option RegisterInfo
  ReadRegisterValue : P → Nat → Nat → Option String → Nat → V → Error × V
  WriteRegisterValue : P → Nat → Nat → Option String → V → Error × P
  GetByteSize : V → Nat
  SetType : V → RegisterInfo → V

/-! ## The register-set tables -/

/-- The array `g_gp_regnums_mips64`. -/
def g_gp_regnums_mips64 : List RegNum :=
  [ RegNum.gp_reg_r0_mips64,
    RegNum.gp_reg_r1_mips64,
    RegNum.gp_reg_r2_mips64,
    RegNum.gp_reg_r3_mips64,
    RegNum.gp_reg_r4_mips64,
    RegNum.gp_reg_r5_mips64,
    RegNum.gp_reg_r6_mips64,
    RegNum.gp_reg_r7_mips64,
    RegNum.gp_reg_r8_mips64,
    RegNum.gp_reg_r9_mips64,
    RegNum.gp_reg_r10_mips64,
    RegNum.gp_reg_r11_mips64,
    RegNum.gp_reg_r12_mips64,
    RegNum.gp_reg_r13_mips64,
    RegNum.gp_reg_r14_mips64,
    RegNum.gp_reg_r15_mips64,
    RegNum.gp_reg_r16_mips64,
    RegNum.gp_reg_r17_mips64,
    RegNum.gp_reg_r18_mips64,
    RegNum.gp_reg_r19_mips64,
    RegNum.gp_reg_r20_mips64,
    RegNum.gp_reg_r21_mips64,
    RegNum.gp_reg_r22_mips64,
    RegNum.gp_reg_r23_mips64,
    RegNum.gp_reg_r24_mips64,
    RegNum.gp_reg_r25_mips64,
    RegNum.gp_reg_r26_mips64,
    RegNum.gp_reg_r27_mips64,
    RegNum.gp_reg_r28_mips64,
    RegNum.gp_reg_r29_mips64,
    RegNum.gp_reg_r30_mips64,
    RegNum.gp_reg_r31_mips64,
    RegNum.gp_reg_mullo_mips64,
    RegNum.gp_reg_mulhi_mips64,
    RegNum.gp_reg_pc_mips64,
    RegNum.gp_reg_badvaddr_mips64,
    RegNum.gp_reg_sr_mips64,
    RegNum.gp_reg_cause_mips64,
    RegNum.LLDB_INVALID_REGNUM ]

/-- The condition of the `static_assert` that follows the array: the file compiles only
when `k_num_gp_reg_mips64` satisfies it. -/
def static_assert_g_gp_regnums_mips64 (k_num_gp_reg_mips64 : Nat) : Prop :=
  g_gp_regnums_mips64.length - 1 = k_num_gp_reg_mips64

instance (k : Nat) : Decidable (static_assert_g_gp_regnums_mips64 k) := by
  unfold static_assert_g_gp_regnums_mips64
  infer_instance

/-- The enumerator `k_num_register_sets`. -/
def k_num_register_sets : Nat := 1

/-- The array `g_reg_sets_mips64`. -/
def g_reg_sets_mips64 (k_num_gp_reg_mips64 : Nat) : List RegisterSet :=
  [ { name := "General Purpose Registers", short_name := "gpr",
      num_registers := k_num_gp_reg_mips64, registers := g_gp_regnums_mips64 } ]

/-- The entries of a register-number array that precede the terminating flag. -/
def entriesBeforeSentinel (registers : List RegNum) : List RegNum :=
  registers.takeWhile (fun r => decide (r ≠ RegNum.LLDB_INVALID_REGNUM))

/-! ## Member functions -/

section members

variable {P V : Type}

/-- The member `GetRegisterSetCount`. -/
def GetRegisterSetCount (_ctx : Context P V) : Nat :=
  k_num_register_sets

/-- The member `GetRegisterSet`.  `none` is `nullptr`. -/
def GetRegisterSet (ctx : Context P V) (set_index : Nat) : Outcome (Option RegisterSet) :=
  if set_index ≥ k_num_register_sets then
    Outcome.ret none
  else
    match ctx.GetMachine with
    | ArchType.mips64 => Outcome.ret ((g_reg_sets_mips64 ctx.k_num_gp_reg_mips64)[set_index]?)
    | ArchType.mips64el => Outcome.ret ((g_reg_sets_mips64 ctx.k_num_gp_reg_mips64)[set_index]?)
    | ArchType.otherArch _ =>
      if ctx.NDEBUG then Outcome.ret none
      else Outcome.assertFail "Unhandled target architecture."

/-- The member `ReadRegisterRaw`. -/
def ReadRegisterRaw (ctx : Context P V) (reg_index : Nat) (reg_value : V)
    (m_thread : NativeThreadProtocol P) : Step P V (Error × V) :=
  match ctx.GetRegisterInfoAtIndex reg_index with
  | none =>
    { outcome := Outcome.ret (Error.registerNotFound reg_index, reg_value),
      m_thread := m_thread, calls := [] }
  | some reg_info =>
    match m_thread.GetProcess with
    | none =>
      { outcome := Outcome.ret (Error.processIsNull, reg_value),
        m_thread := m_thread, calls := [] }
    | some process_p =>
      { outcome := Outcome.ret
          (ctx.ReadRegisterValue process_p m_thread.GetID reg_info.byte_offset
            reg_info.name reg_info.byte_size reg_value),
        m_thread := m_thread,
        calls := [Call.ReadRegisterValue m_thread.GetID reg_info.byte_offset
                    reg_info.name reg_info.byte_size] }

/-- The member `ReadRegister`.  `reg_info = none` is a null pointer. -/
def ReadRegister (ctx : Context P V) (reg_info : Option RegisterInfo) (reg_value : V)
    (m_thread : NativeThreadProtocol P) : Step P V (Error × V) :=
  match reg_info with
  | none =>
    { outcome := Outcome.ret (Error.regInfoNull, reg_value),
      m_thread := m_thread, calls := [] }
  | some info =>
    if info.kinds_eRegisterKindLLDB = LLDB_INVALID_REGNUM then
      { outcome := Outcome.ret (Error.internalOnlyRegister info.name, reg_value),
        m_thread := m_thread, calls := [] }
    else
      let raw := ReadRegisterRaw ctx info.kinds_eRegisterKindLLDB reg_value m_thread
      match raw.outcome with
      | Outcome.ret (error, value) =>
        if error.Success then
          if ctx.GetByteSize value > info.byte_size then
            { raw with outcome := Outcome.ret (error, ctx.SetType value info) }
          else
            raw
        else
          raw
      | _ => raw

/-- The member `WriteRegister (const uint32_t reg, const RegisterValue &value)`. -/
def WriteRegister_reg (ctx : Context P V) (reg : Nat) (value : V)
    (m_thread : NativeThreadProtocol P) : Step P V Error :=
  match m_thread.GetProcess with
  | none =>
    { outcome := Outcome.ret Error.processIsNull, m_thread := m_thread, calls := [] }
  | some process_p =>
    match ctx.GetRegisterInfoAtIndex reg with
    | none =>
      if ctx.NDEBUG then
        { outcome := Outcome.ret (Error.failedToGetRegisterInfo reg),
          m_thread := m_thread, calls := [] }
      else
        { outcome := Outcome.assertFail "register to write does not have valid RegisterInfo",
          m_thread := m_thread, calls := [] }
    | some register_to_write_info_p =>
      let written := ctx.WriteRegisterValue process_p m_thread.GetID
        register_to_write_info_p.byte_offset register_to_write_info_p.name value
      { outcome := Outcome.ret written.1,
        m_thread := { m_thread with GetProcess := some written.2 },
        calls := [Call.WriteRegisterValue m_thread.GetID
                    register_to_write_info_p.byte_offset register_to_write_info_p.name value] }

/-- The member `WriteRegister (const RegisterInfo *reg_info, const RegisterValue &reg_value)`.
`reg_info = none` is a null pointer. -/
def WriteRegister_reg_info (ctx : Context P V) (reg_info : Option RegisterInfo) (reg_value : V)
    (m_thread : NativeThreadProtocol P) : Step P V Error :=
  match reg_info with
  | none =>
    if ctx.NDEBUG then
      { outcome := Outcome.nullDeref, m_thread := m_thread, calls := [] }
    else
      { outcome := Outcome.assertFail "reg_info is null", m_thread := m_thread, calls := [] }
  | some info =>
    if info.kinds_eRegisterKindLLDB = LLDB_INVALID_REGNUM then
      { outcome := Outcome.ret (Error.noLldbRegnum (info.name.getD "<unknown register>")),
        m_thread := m_thread, calls := [] }
    else
      WriteRegister_reg ctx info.kinds_eRegisterKindLLDB reg_value m_thread

/-- The member `ReadAllRegisterValues`.  `data_sp` is the caller's buffer reference. -/
def ReadAllRegisterValues {B : Type} (_ctx : Context P V) (data_sp : B)
    (m_thread : NativeThreadProtocol P) : Step P V (Error × B) :=
  { outcome := Outcome.ret (Error.notImplemented "ReadAllRegisterValues", data_sp),
    m_thread := m_thread, calls := [] }

/-- The member `WriteAllRegisterValues`.  `data_sp` is the caller's buffer reference. -/
def WriteAllRegisterValues {B : Type} (_ctx : Context P V) (data_sp : B)
    (m_thread : NativeThreadProtocol P) : Step P V (Error × B) :=
  { outcome := Outcome.ret (Error.notImplemented "WriteAllRegisterValues", data_sp),
    m_thread := m_thread, calls := [] }

end members

/-- The member `IsWatchpointHit`: the error and `is_hit` afterwards. -/
def IsWatchpointHit (_wp_index : Nat) (_is_hit : Bool) : Error × Bool :=
  (Error.notImplemented "IsWatchpointHit", false)

/-- The member `IsWatchpointVacant`: the error and `is_vacant` afterwards. -/
def IsWatchpointVacant (_wp_index : Nat) (_is_vacant : Bool) : Error × Bool :=
  (Error.notImplemented "IsWatchpointVacant", false)

/-- The member `ClearHardwareWatchpoint`. -/
def ClearHardwareWatchpoint (_wp_index : Nat) : Bool :=
  false

/-- The member `ClearAllHardwareWatchpoints`. -/
def ClearAllHardwareWatchpoints : Error :=
  Error.notImplemented "ClearAllHardwareWatchpoints"

/-- The member `SetHardwareWatchpointWithIndex`. -/
def SetHardwareWatchpointWithIndex (_addr _size _watch_flags _wp_index : Nat) : Error :=
  Error.notImplemented "SetHardwareWatchpointWithIndex"

/-- The member `SetHardwareWatchpoint`. -/
def SetHardwareWatchpoint (_addr _size _watch_flags : Nat) : Nat :=
  LLDB_INVALID_INDEX32

/-- The member `GetWatchpointAddress`. -/
def GetWatchpointAddress (_wp_index : Nat) : Nat :=
  LLDB_INVALID_ADDRESS

/-- The member `NumSupportedHardwareWatchpoints`. -/
def NumSupportedHardwareWatchpoints : Nat :=
  0

/-! ## A process collaborator that stores what is written

Used to evaluate the member functions on concrete inputs. -/

/-- Modelled from the spec: the class `RegisterValue`, declared outside this source file,
as the spec's data model has it: a byte buffer plus a size and an optional type tag. -/
structure RegisterValue where
  bytes : List Nat
  byte_size : Nat
  type : Option String
  deriving DecidableEq, Repr

/-- The method `RegisterValue::GetByteSize ()` on the model above. -/
def RegisterValue.GetByteSize (value : RegisterValue) : Nat :=
  value.byte_size

/-- Modelled from the spec: the method `RegisterValue::SetType (const RegisterInfo *)`,
declared outside this source file: the value is tagged with the type of the descriptor,
here the descriptor's name and width. -/
def RegisterValue.SetType (value : RegisterValue) (reg_info : RegisterInfo) : RegisterValue :=
  { value with
    byte_size := reg_info.byte_size,
    type := some (reg_info.name.getD "" ++ "/" ++ toString reg_info.byte_size) }

/-- The state of a process collaborator that keeps every raw write: the writes made so
far, newest first, each with its thread id and byte offset. -/
abbrev RegisterStore : Type := List (Nat × Nat × RegisterValue)

/-- The raw read of the storing collaborator: the newest value written for this thread at
this offset; a failure that leaves the out-parameter alone when there is none. -/
def RegisterStore.ReadRegisterValue (p : RegisterStore) (tid byte_offset : Nat)
    (_name : Option String) (_byte_size : Nat) (reg_value : RegisterValue) :
    Error × RegisterValue :=
  match p.find? (fun entry => entry.1 == tid && entry.2.1 == byte_offset) with
  | some entry => (Error.success, entry.2.2)
  | none => (Error.otherFailure "nothing written at this offset", reg_value)

/-- The raw write of the storing collaborator. -/
def RegisterStore.WriteRegisterValue (p : RegisterStore) (tid byte_offset : Nat)
    (_name : Option String) (value : RegisterValue) : Error × RegisterStore :=
  (Error.success, (tid, byte_offset, value) :: p)

/-- A catalog of three descriptors: two 8-byte registers and one 4-byte register. -/
def sampleCatalog : List RegisterInfo :=
  [ { name := some "r0", byte_size := 8, byte_offset := 0, kinds_eRegisterKindLLDB := 0 },
    { name := some "r1", byte_size := 8, byte_offset := 8, kinds_eRegisterKindLLDB := 1 },
    { name := some "sr", byte_size := 4, byte_offset := 16, kinds_eRegisterKindLLDB := 2 } ]

/-- A context over the storing collaborator and the sample catalog. -/
def sampleContext (NDEBUG : Bool) (machine : ArchType) : Context RegisterStore RegisterValue :=
  { NDEBUG := NDEBUG,
    GetMachine := machine,
    k_num_gp_reg_mips64 := 38,
    GetRegisterInfoAtIndex := fun reg_index => sampleCatalog[reg_index]?,
    ReadRegisterValue := RegisterStore.ReadRegisterValue,
    WriteRegisterValue := RegisterStore.WriteRegisterValue,
    GetByteSize := RegisterValue.GetByteSize,
    SetType := RegisterValue.SetType }

/-- The descriptor of `r1` in the sample catalog. -/
def sample_r1 : RegisterInfo :=
  { name := some "r1", byte_size := 8, byte_offset := 8, kinds_eRegisterKindLLDB := 1 }

/-- The descriptor of `sr` in the sample catalog. -/
def sample_sr : RegisterInfo :=
  { name := some "sr", byte_size := 4, byte_offset := 16, kinds_eRegisterKindLLDB := 2 }

/-- A descriptor of an internal-only register: its LLDB index is the sentinel. -/
def sample_internal : RegisterInfo :=
  { name := some "internal", byte_size := 8, byte_offset := 0,
    kinds_eRegisterKindLLDB := LLDB_INVALID_REGNUM }

/-- An 8-byte value. -/
def sample_value : RegisterValue :=
  { bytes := [0xde, 0xad, 0xbe, 0xef, 0x01, 0x02, 0x03, 0x04], byte_size := 8,
    type := some "uint64" }

/-- A value a caller holds before a read. -/
def sample_out : RegisterValue :=
  { bytes := [], byte_size := 0, type := none }

/-- A thread whose process is live and has had no register written. -/
def sample_live_thread : NativeThreadProtocol RegisterStore :=
  { GetProcess := some [], GetID := 7 }

/-- A thread whose process has had `sample_value` written at offset 16. -/
def sample_written_thread : NativeThreadProtocol RegisterStore :=
  { GetProcess := some [(7, 16, sample_value)], GetID := 7 }

/-- A thread whose process is gone. -/
def sample_gone_thread : NativeThreadProtocol RegisterStore :=
  { GetProcess := none, GetID := 7 }

/-! ## Properties of the collaborators that the theorems assume -/

/-- A process collaborator that faithfully stores raw writes: every raw write succeeds, and
a raw read of the same thread at the same offset that follows it succeeds and yields the
value written, bytes, size and type tag alike, whatever size the read asks for and
whatever the out-parameter held. -/
def FaithfulStore {P V : Type} (ctx : Context P V) : Prop :=
  ∀ (p : P) (tid byte_offset : Nat) (name : Option String) (value : V),
    (ctx.WriteRegisterValue p tid byte_offset name value).1 = Error.success ∧
    ∀ (byte_size : Nat) (reg_value : V),
      ctx.ReadRegisterValue (ctx.WriteRegisterValue p tid byte_offset name value).2
        tid byte_offset name byte_size reg_value = (Error.success, value)

/-- A result fails with an error of the given kind. -/
def FailsWith (outcome : Outcome Error) (k : ErrorKind) : Prop :=
  ∃ error, outcome = Outcome.ret error ∧ error.kind = some k

/-! ## Theorems -/

section theorems

variable {P V : Type}

theorem sampleContext_faithful (NDEBUG : Bool) (machine : ArchType) :
    FaithfulStore (sampleContext NDEBUG machine) := by
  intro p tid byte_offset name value
  simp [sampleContext, RegisterStore.WriteRegisterValue, RegisterStore.ReadRegisterValue]

/-- Claim C1: for a descriptor whose LLDB index is not the sentinel and resolves in the
catalog, a live process collaborator that faithfully stores raw writes, and a value no
wider than the descriptor, `WriteRegister (d, v)` returns success, and `ReadRegister (d)`
on the state it leaves returns success and hands back exactly `v`, whatever the caller's
out-parameter held. -/
theorem C1_write_then_read_round_trip (ctx : Context P V) (d : RegisterInfo) (v reg_value : V)
    (m_thread : NativeThreadProtocol P) (p : P)
    (hsentinel : d.kinds_eRegisterKindLLDB ≠ LLDB_INVALID_REGNUM)
    (hresolves : (ctx.GetRegisterInfoAtIndex d.kinds_eRegisterKindLLDB).isSome = true)
    (hlive : m_thread.GetProcess = some p)
    (hfaithful : FaithfulStore ctx)
    (hsize : ctx.GetByteSize v ≤ d.byte_size) :
    (WriteRegister_reg_info ctx (some d) v m_thread).outcome = Outcome.ret Error.success ∧
    (ReadRegister ctx (some d) reg_value
        (WriteRegister_reg_info ctx (some d) v m_thread).m_thread).outcome
      = Outcome.ret (Error.success, v) := by
  obtain ⟨info, hinfo⟩ := Option.isSome_iff_exists.mp hresolves
  obtain ⟨hw, hr⟩ := hfaithful p m_thread.GetID info.byte_offset info.name v
  have hnot : ¬ ctx.GetByteSize v > d.byte_size := Nat.not_lt.mpr hsize
  constructor
  · simp [WriteRegister_reg_info, WriteRegister_reg, hsentinel, hlive, hinfo, hw]
  · simp [WriteRegister_reg_info, WriteRegister_reg, ReadRegister, ReadRegisterRaw,
      hsentinel, hlive, hinfo, hr, Error.Success, hnot]

/-- Witness of C1 on the storing collaborator: writing `sample_value` to `r1` and reading
`r1` back. -/
theorem C1_write_then_read_round_trip_witness :
    (WriteRegister_reg_info (sampleContext false ArchType.mips64) (some sample_r1)
        sample_value sample_live_thread).outcome = Outcome.ret Error.success ∧
    (ReadRegister (sampleContext false ArchType.mips64) (some sample_r1) sample_out
        (WriteRegister_reg_info (sampleContext false ArchType.mips64) (some sample_r1)
          sample_value sample_live_thread).m_thread).outcome
      = Outcome.ret (Error.success, sample_value) :=
  C1_write_then_read_round_trip (sampleContext false ArchType.mips64) sample_r1 sample_value
    sample_out sample_live_thread [] (by decide) (by decide) rfl
    (sampleContext_faithful false ArchType.mips64) (by decide)

/-- Claim C2: for a descriptor whose LLDB index is the invalid-register sentinel, whatever
the process state and the values, `ReadRegister` and `WriteRegister` both fail with an
`InvalidRegister` error, make no call on the process collaborator and leave `m_thread`
(and, for the read, the out-parameter) as it was. -/
theorem C2_sentinel_descriptor_rejected (ctx : Context P V) (d : RegisterInfo)
    (value reg_value : V) (m_thread : NativeThreadProtocol P)
    (hsentinel : d.kinds_eRegisterKindLLDB = LLDB_INVALID_REGNUM) :
    (∃ error, (ReadRegister ctx (some d) reg_value m_thread).outcome
        = Outcome.ret (error, reg_value) ∧ error.kind = some ErrorKind.InvalidRegister) ∧
    (ReadRegister ctx (some d) reg_value m_thread).calls = [] ∧
    (ReadRegister ctx (some d) reg_value m_thread).m_thread = m_thread ∧
    FailsWith (WriteRegister_reg_info ctx (some d) value m_thread).outcome
      ErrorKind.InvalidRegister ∧
    (WriteRegister_reg_info ctx (some d) value m_thread).calls = [] ∧
    (WriteRegister_reg_info ctx (some d) value m_thread).m_thread = m_thread := by
  refine ⟨⟨Error.internalOnlyRegister d.name, ?_, rfl⟩, ?_, ?_,
    ⟨Error.noLldbRegnum (d.name.getD "<unknown register>"), ?_, rfl⟩, ?_, ?_⟩ <;>
  simp [ReadRegister, WriteRegister_reg_info, hsentinel]

/-- Witness of C2: the internal-only sample descriptor, on a live process. -/
theorem C2_sentinel_descriptor_rejected_witness :
    (ReadRegister (sampleContext false ArchType.mips64) (some sample_internal) sample_out
        sample_live_thread).calls = [] ∧
    (WriteRegister_reg_info (sampleContext false ArchType.mips64) (some sample_internal)
        sample_value sample_live_thread).calls = [] :=
  have h := C2_sentinel_descriptor_rejected (sampleContext false ArchType.mips64)
    sample_internal sample_value sample_out sample_live_thread rfl
  ⟨h.2.1, h.2.2.2.2.1⟩

/-- Claim C3: for a descriptor whose LLDB index is not the sentinel and resolves in the
catalog, when `GetProcess ()` yields an empty reference `ReadRegister` fails with a
`NullReference` error and the out-parameter is what the caller passed in. -/
theorem C3_read_without_process (ctx : Context P V) (d : RegisterInfo) (reg_value : V)
    (m_thread : NativeThreadProtocol P)
    (hsentinel : d.kinds_eRegisterKindLLDB ≠ LLDB_INVALID_REGNUM)
    (hresolves : (ctx.GetRegisterInfoAtIndex d.kinds_eRegisterKindLLDB).isSome = true)
    (hgone : m_thread.GetProcess = none) :
    ∃ error, (ReadRegister ctx (some d) reg_value m_thread).outcome
        = Outcome.ret (error, reg_value) ∧ error.kind = some ErrorKind.NullReference := by
  obtain ⟨info, hinfo⟩ := Option.isSome_iff_exists.mp hresolves
  refine ⟨Error.processIsNull, ?_, rfl⟩
  simp [ReadRegister, ReadRegisterRaw, hsentinel, hinfo, hgone, Error.Success]

/-- Witness of C3: reading `r1` of the sample catalog when the process is gone. -/
theorem C3_read_without_process_witness :
    ∃ error, (ReadRegister (sampleContext false ArchType.mips64) (some sample_r1) sample_value
        sample_gone_thread).outcome = Outcome.ret (error, sample_value) ∧
      error.kind = some ErrorKind.NullReference :=
  C3_read_without_process (sampleContext false ArchType.mips64) sample_r1 sample_value
    sample_gone_thread (by decide) (by decide) rfl

theorem g_gp_regnums_mips64_getLast :
    g_gp_regnums_mips64.getLast? = some RegNum.LLDB_INVALID_REGNUM := by
  decide

theorem g_gp_regnums_mips64_entries :
    entriesBeforeSentinel g_gp_regnums_mips64 =
      [ RegNum.gp_reg_r0_mips64, RegNum.gp_reg_r1_mips64, RegNum.gp_reg_r2_mips64,
        RegNum.gp_reg_r3_mips64, RegNum.gp_reg_r4_mips64, RegNum.gp_reg_r5_mips64,
        RegNum.gp_reg_r6_mips64, RegNum.gp_reg_r7_mips64, RegNum.gp_reg_r8_mips64,
        RegNum.gp_reg_r9_mips64, RegNum.gp_reg_r10_mips64, RegNum.gp_reg_r11_mips64,
        RegNum.gp_reg_r12_mips64, RegNum.gp_reg_r13_mips64, RegNum.gp_reg_r14_mips64,
        RegNum.gp_reg_r15_mips64, RegNum.gp_reg_r16_mips64, RegNum.gp_reg_r17_mips64,
        RegNum.gp_reg_r18_mips64, RegNum.gp_reg_r19_mips64, RegNum.gp_reg_r20_mips64,
        RegNum.gp_reg_r21_mips64, RegNum.gp_reg_r22_mips64, RegNum.gp_reg_r23_mips64,
        RegNum.gp_reg_r24_mips64, RegNum.gp_reg_r25_mips64, RegNum.gp_reg_r26_mips64,
        RegNum.gp_reg_r27_mips64, RegNum.gp_reg_r28_mips64, RegNum.gp_reg_r29_mips64,
        RegNum.gp_reg_r30_mips64, RegNum.gp_reg_r31_mips64, RegNum.gp_reg_mullo_mips64,
        RegNum.gp_reg_mulhi_mips64, RegNum.gp_reg_pc_mips64,
        RegNum.gp_reg_badvaddr_mips64, RegNum.gp_reg_sr_mips64,
        RegNum.gp_reg_cause_mips64 ] := by
  decide

/-- Claim C4: on mips64 and mips64el, when the `static_assert` of the source holds, for
every index below `GetRegisterSetCount ()` the call `GetRegisterSet (i)` returns a set; its
register array ends with the invalid-register flag; its declared count is the number of
entries before that flag; and that number is 38, the entries being r0 to r31, mullo,
mulhi, pc, badvaddr, sr, cause, in that order, of the set named
"General Purpose Registers". -/
theorem C4_register_set_well_formed (ctx : Context P V) (i : Nat)
    (hmachine : ctx.GetMachine = ArchType.mips64 ∨ ctx.GetMachine = ArchType.mips64el)
    (hstatic : static_assert_g_gp_regnums_mips64 ctx.k_num_gp_reg_mips64)
    (hi : i < GetRegisterSetCount ctx) :
    ∃ set, GetRegisterSet ctx i = Outcome.ret (some set) ∧
      set.registers.getLast? = some RegNum.LLDB_INVALID_REGNUM ∧
      set.num_registers = (entriesBeforeSentinel set.registers).length ∧
      set.name = "General Purpose Registers" ∧
      set.num_registers = 38 ∧
      entriesBeforeSentinel set.registers =
        [ RegNum.gp_reg_r0_mips64, RegNum.gp_reg_r1_mips64, RegNum.gp_reg_r2_mips64,
          RegNum.gp_reg_r3_mips64, RegNum.gp_reg_r4_mips64, RegNum.gp_reg_r5_mips64,
          RegNum.gp_reg_r6_mips64, RegNum.gp_reg_r7_mips64, RegNum.gp_reg_r8_mips64,
          RegNum.gp_reg_r9_mips64, RegNum.gp_reg_r10_mips64, RegNum.gp_reg_r11_mips64,
          RegNum.gp_reg_r12_mips64, RegNum.gp_reg_r13_mips64, RegNum.gp_reg_r14_mips64,
          RegNum.gp_reg_r15_mips64, RegNum.gp_reg_r16_mips64, RegNum.gp_reg_r17_mips64,
          RegNum.gp_reg_r18_mips64, RegNum.gp_reg_r19_mips64, RegNum.gp_reg_r20_mips64,
          RegNum.gp_reg_r21_mips64, RegNum.gp_reg_r22_mips64, RegNum.gp_reg_r23_mips64,
          RegNum.gp_reg_r24_mips64, RegNum.gp_reg_r25_mips64, RegNum.gp_reg_r26_mips64,
          RegNum.gp_reg_r27_mips64, RegNum.gp_reg_r28_mips64, RegNum.gp_reg_r29_mips64,
          RegNum.gp_reg_r30_mips64, RegNum.gp_reg_r31_mips64, RegNum.gp_reg_mullo_mips64,
          RegNum.gp_reg_mulhi_mips64, RegNum.gp_reg_pc_mips64,
          RegNum.gp_reg_badvaddr_mips64, RegNum.gp_reg_sr_mips64,
          RegNum.gp_reg_cause_mips64 ] := by
  have hi0 : i = 0 := by
    have : i < 1 := hi
    omega
  subst hi0
  have hk : ctx.k_num_gp_reg_mips64 = 38 := by
    have h : g_gp_regnums_mips64.length - 1 = ctx.k_num_gp_reg_mips64 := hstatic
    rw [← h]
    rfl
  refine ⟨{ name := "General Purpose Registers", short_name := "gpr",
            num_registers := ctx.k_num_gp_reg_mips64, registers := g_gp_regnums_mips64 },
          ?_, g_gp_regnums_mips64_getLast, ?_, rfl, hk, g_gp_regnums_mips64_entries⟩
  · rcases hmachine with h | h <;>
      simp [GetRegisterSet, k_num_register_sets, g_reg_sets_mips64, h]
  · show ctx.k_num_gp_reg_mips64 = (entriesBeforeSentinel g_gp_regnums_mips64).length
    rw [hk, g_gp_regnums_mips64_entries]
    rfl

/-- Witness of C4: set 0 of a mips64el context whose `k_num_gp_reg_mips64` is 38. -/
theorem C4_register_set_well_formed_witness :
    ∃ set, GetRegisterSet (sampleContext false ArchType.mips64el) 0 = Outcome.ret (some set) ∧
      set.registers.getLast? = some RegNum.LLDB_INVALID_REGNUM ∧
      set.num_registers = (entriesBeforeSentinel set.registers).length ∧
      set.name = "General Purpose Registers" ∧
      set.num_registers = 38 :=
  have h := C4_register_set_well_formed (sampleContext false ArchType.mips64el) 0
    (Or.inr rfl) (by decide) (by decide)
  h.imp (fun _ hset => ⟨hset.1, hset.2.1, hset.2.2.1, hset.2.2.2.1, hset.2.2.2.2.1⟩)

/-- Claim C5: for every set index at or above `GetRegisterSetCount ()`, on every machine
variant and in both build flavours, `GetRegisterSet` returns none; it does not stop at
the assertion on the architecture. -/
theorem C5_register_set_out_of_range (ctx : Context P V) (set_index : Nat)
    (hindex : set_index ≥ GetRegisterSetCount ctx) :
    GetRegisterSet ctx set_index = Outcome.ret none := by
  have h : set_index ≥ k_num_register_sets := hindex
  simp [GetRegisterSet, h]

/-- Witness of C5: index 1 on a machine that is neither mips64 nor mips64el, assertions
enabled. -/
theorem C5_register_set_out_of_range_witness :
    GetRegisterSet (sampleContext false (ArchType.otherArch 0)) 1 = Outcome.ret none :=
  C5_register_set_out_of_range (sampleContext false (ArchType.otherArch 0)) 1 (by decide)

/-- Claim C6: `NumSupportedHardwareWatchpoints ()` is 0; `SetHardwareWatchpoint` returns the
invalid-slot sentinel; `IsWatchpointHit` and `IsWatchpointVacant` fail with an
`Unsupported` error and leave their boolean output false whatever it held;
`GetWatchpointAddress` returns the invalid-address sentinel. -/
theorem C6_no_hardware_watchpoints (addr size watch_flags wp_index : Nat) (flag : Bool) :
    NumSupportedHardwareWatchpoints = 0 ∧
    SetHardwareWatchpoint addr size watch_flags = LLDB_INVALID_INDEX32 ∧
    (IsWatchpointHit wp_index flag).1.kind = some ErrorKind.Unsupported ∧
    (IsWatchpointHit wp_index flag).2 = false ∧
    (IsWatchpointVacant wp_index flag).1.kind = some ErrorKind.Unsupported ∧
    (IsWatchpointVacant wp_index flag).2 = false ∧
    GetWatchpointAddress wp_index = LLDB_INVALID_ADDRESS :=
  ⟨rfl, rfl, rfl, rfl, rfl, rfl, rfl⟩

/-- Claim C7: for every buffer and process state, `ReadAllRegisterValues` and
`WriteAllRegisterValues` fail with an `Unsupported` error, make no call on the process
collaborator, and leave the buffer reference, `m_thread` and hence the result of reading
any register unchanged. -/
theorem C7_bulk_transfer_unsupported {B : Type} (ctx : Context P V) (data_sp : B)
    (m_thread : NativeThreadProtocol P) :
    (∃ error, (ReadAllRegisterValues ctx data_sp m_thread).outcome
        = Outcome.ret (error, data_sp) ∧ error.kind = some ErrorKind.Unsupported) ∧
    (ReadAllRegisterValues ctx data_sp m_thread).calls = [] ∧
    (ReadAllRegisterValues ctx data_sp m_thread).m_thread = m_thread ∧
    (∃ error, (WriteAllRegisterValues ctx data_sp m_thread).outcome
        = Outcome.ret (error, data_sp) ∧ error.kind = some ErrorKind.Unsupported) ∧
    (WriteAllRegisterValues ctx data_sp m_thread).calls = [] ∧
    (WriteAllRegisterValues ctx data_sp m_thread).m_thread = m_thread ∧
    (∀ (reg_info : Option RegisterInfo) (reg_value : V),
      ReadRegister ctx reg_info reg_value (ReadAllRegisterValues ctx data_sp m_thread).m_thread
        = ReadRegister ctx reg_info reg_value m_thread ∧
      ReadRegister ctx reg_info reg_value (WriteAllRegisterValues ctx data_sp m_thread).m_thread
        = ReadRegister ctx reg_info reg_value m_thread) :=
  ⟨⟨_, rfl, rfl⟩, rfl, rfl, ⟨_, rfl, rfl⟩, rfl, rfl, fun _ _ => ⟨rfl, rfl⟩⟩

/-- Claim C8, refuted as stated: index 99 has no descriptor in the sample catalog and the
process is gone; `WriteRegister (99, value)` returns the error "NativeProcessProtocol is
NULL", a `NullReference` error and not a `NotFound` one, whereas `ReadRegisterRaw (99)`
fails with a `NotFound` error. -/
theorem C8_counterexample_process_gone :
    (sampleContext true ArchType.mips64).GetRegisterInfoAtIndex 99 = none ∧
    (WriteRegister_reg (sampleContext true ArchType.mips64) 99 sample_value
        sample_gone_thread).outcome = Outcome.ret Error.processIsNull ∧
    ¬ FailsWith (WriteRegister_reg (sampleContext true ArchType.mips64) 99 sample_value
        sample_gone_thread).outcome ErrorKind.NotFound ∧
    (ReadRegisterRaw (sampleContext true ArchType.mips64) 99 sample_out
        sample_gone_thread).outcome = Outcome.ret (Error.registerNotFound 99, sample_out) ∧
    (Error.registerNotFound 99).kind = some ErrorKind.NotFound := by
  refine ⟨rfl, rfl, ?_, rfl, rfl⟩
  rintro ⟨error, houtcome, hkind⟩
  have hvalue : (WriteRegister_reg (sampleContext true ArchType.mips64) 99 sample_value
      sample_gone_thread).outcome = Outcome.ret Error.processIsNull := rfl
  rw [hvalue] at houtcome
  injection houtcome with herror
  subst herror
  simp [Error.kind] at hkind

/-- Claim C8, amended: for an index that has no descriptor in the catalog, `WriteRegister
(index, value)` makes no call on the process collaborator, leaves `m_thread` as it was and
does not return success.  When the process is gone it fails with a `NullReference` error
(the process is checked before the descriptor is looked up).  When the process is live
and assertions are compiled out it fails with a `NotFound` error.  `ReadRegisterRaw
(index)` fails with a `NotFound` error in every process state. -/
theorem C8_write_unresolved_index (ctx : Context P V) (reg : Nat) (value : V)
    (m_thread : NativeThreadProtocol P)
    (hunresolved : ctx.GetRegisterInfoAtIndex reg = none) :
    (WriteRegister_reg ctx reg value m_thread).calls = [] ∧
    (WriteRegister_reg ctx reg value m_thread).m_thread = m_thread ∧
    (WriteRegister_reg ctx reg value m_thread).outcome ≠ Outcome.ret Error.success ∧
    (m_thread.GetProcess = none →
      FailsWith (WriteRegister_reg ctx reg value m_thread).outcome ErrorKind.NullReference) ∧
    (m_thread.GetProcess.isSome = true → ctx.NDEBUG = true →
      FailsWith (WriteRegister_reg ctx reg value m_thread).outcome ErrorKind.NotFound) ∧
    (∀ reg_value : V, ∃ error,
      (ReadRegisterRaw ctx reg reg_value m_thread).outcome = Outcome.ret (error, reg_value) ∧
      error.kind = some ErrorKind.NotFound ∧
      (ReadRegisterRaw ctx reg reg_value m_thread).calls = []) := by
  refine ⟨?_, ?_, ?_, ?_, ?_, ?_⟩
  · cases hp : m_thread.GetProcess <;> cases hn : ctx.NDEBUG <;>
      simp [WriteRegister_reg, hp, hn, hunresolved]
  · cases hp : m_thread.GetProcess <;> cases hn : ctx.NDEBUG <;>
      simp [WriteRegister_reg, hp, hn, hunresolved]
  · cases hp : m_thread.GetProcess <;> cases hn : ctx.NDEBUG <;>
      simp [WriteRegister_reg, hp, hn, hunresolved]
  · intro hp
    exact ⟨Error.processIsNull, by simp [WriteRegister_reg, hp], rfl⟩
  · intro hp hn
    obtain ⟨p, hp⟩ := Option.isSome_iff_exists.mp hp
    exact ⟨Error.failedToGetRegisterInfo reg,
      by simp [WriteRegister_reg, hp, hn, hunresolved], rfl⟩
  · intro reg_value
    exact ⟨Error.registerNotFound reg, by simp [ReadRegisterRaw, hunresolved], rfl,
      by simp [ReadRegisterRaw, hunresolved]⟩

/-- Witness of the amended C8: index 99 of the sample catalog, process live, assertions
compiled out. -/
theorem C8_write_unresolved_index_witness :
    (WriteRegister_reg (sampleContext true ArchType.mips64) 99 sample_value
        sample_live_thread).calls = [] ∧
    FailsWith (WriteRegister_reg (sampleContext true ArchType.mips64) 99 sample_value
        sample_live_thread).outcome ErrorKind.NotFound :=
  have h := C8_write_unresolved_index (sampleContext true ArchType.mips64) 99 sample_value
    sample_live_thread rfl
  ⟨h.1, h.2.2.2.2.1 rfl rfl⟩

/-- Claim C9, the code at the failing input: `WriteRegister (reg_info, value)` with a null
`reg_info` does not return an error.  With assertions enabled it stops at
`assert (reg_info && "reg_info is null")`; with assertions compiled out it reads
`reg_info->kinds` through the null pointer.  `ReadRegister` with a null `reg_info` returns
the error "reg_info NULL".  And `WriteRegister (index, value)` with an index that has no
descriptor, a live process and assertions enabled stops at an assertion too. -/
theorem C9_write_null_descriptor_does_not_return (ctx : Context P V) (reg_value : V)
    (m_thread : NativeThreadProtocol P) :
    (WriteRegister_reg_info ctx none reg_value m_thread).outcome
      = (if ctx.NDEBUG then Outcome.nullDeref else Outcome.assertFail "reg_info is null") ∧
    (∀ error, (WriteRegister_reg_info ctx none reg_value m_thread).outcome
      ≠ Outcome.ret error) ∧
    (ReadRegister ctx none reg_value m_thread).outcome
      = Outcome.ret (Error.regInfoNull, reg_value) ∧
    (WriteRegister_reg (sampleContext false ArchType.mips64) 99 sample_value
        sample_live_thread).outcome
      = Outcome.assertFail "register to write does not have valid RegisterInfo" := by
  refine ⟨?_, ?_, rfl, rfl⟩
  · cases hn : ctx.NDEBUG <;> simp [WriteRegister_reg_info, hn]
  · intro error
    cases hn : ctx.NDEBUG <;> simp [WriteRegister_reg_info, hn]

/-- Claim C10: for a descriptor `d` whose LLDB index is not the sentinel and resolves in
the catalog to `info`, and a live process, `ReadRegister (d)` makes exactly one raw read,
with the offset, name and size of `info`.  If that read fails, its error and value are
returned as they are.  If it succeeds with a value wider than `d.byte_size`, the value
is returned after `SetType (d)`.  If it succeeds with a value no wider than
`d.byte_size`, the value is returned as it is. -/
theorem C10_read_result_shaping (ctx : Context P V) (d info : RegisterInfo) (reg_value : V)
    (m_thread : NativeThreadProtocol P) (p : P) (error : Error) (value : V)
    (hsentinel : d.kinds_eRegisterKindLLDB ≠ LLDB_INVALID_REGNUM)
    (hresolves : ctx.GetRegisterInfoAtIndex d.kinds_eRegisterKindLLDB = some info)
    (hlive : m_thread.GetProcess = some p)
    (hraw : ctx.ReadRegisterValue p m_thread.GetID info.byte_offset info.name info.byte_size
      reg_value = (error, value)) :
    (ReadRegister ctx (some d) reg_value m_thread).calls
      = [Call.ReadRegisterValue m_thread.GetID info.byte_offset info.name info.byte_size] ∧
    (error.Success = false →
      (ReadRegister ctx (some d) reg_value m_thread).outcome = Outcome.ret (error, value)) ∧
    (error.Success = true → ctx.GetByteSize value > d.byte_size →
      (ReadRegister ctx (some d) reg_value m_thread).outcome
        = Outcome.ret (error, ctx.SetType value d)) ∧
    (error.Success = true → ctx.GetByteSize value ≤ d.byte_size →
      (ReadRegister ctx (some d) reg_value m_thread).outcome = Outcome.ret (error, value)) := by
  refine ⟨?_, ?_, ?_, ?_⟩
  · by_cases hs : error.Success = true <;>
    by_cases hw : ctx.GetByteSize value > d.byte_size <;>
      simp [ReadRegister, ReadRegisterRaw, hsentinel, hresolves, hlive, hraw, hs, hw]
  · intro hs
    simp [ReadRegister, ReadRegisterRaw, hsentinel, hresolves, hlive, hraw, hs]
  · intro hs hw
    simp [ReadRegister, ReadRegisterRaw, hsentinel, hresolves, hlive, hraw, hs, hw]
  · intro hs hw
    have hnot : ¬ d.byte_size < ctx.GetByteSize value := Nat.not_lt.mpr hw
    simp [ReadRegister, ReadRegisterRaw, hsentinel, hresolves, hlive, hraw, hs, hnot]

/-- Witness of C10: the 4-byte register `sr` of the sample catalog, read from a process
that holds an 8-byte value at its offset: the value comes back after `SetType`. -/
theorem C10_read_result_shaping_witness :
    (ReadRegister (sampleContext false ArchType.mips64) (some sample_sr) sample_out
        sample_written_thread).outcome
      = Outcome.ret (Error.success, RegisterValue.SetType sample_value sample_sr) :=
  (C10_read_result_shaping (sampleContext false ArchType.mips64) sample_sr sample_sr
    sample_out sample_written_thread [(7, 16, sample_value)] Error.success sample_value
    (by decide) rfl rfl rfl).2.2.1 rfl (by decide)

end theorems

end NativeRegisterContextLinux_mips64
